import Mathlib

/-!
# blubber-service: startup sequence of `cmd/blubber-service/main.go`

A shallow embedding of `func main()`.  The Go standard library, the Doozer
exporter, the directory client and the two front-end types are external
collaborators: each call into them is a field of `World` (the value the call
returns) and leaves an `Event` in the trace of the run.  Every collaborator
function is called at most once in a run of `main`, so a `World` of functions
of the call's arguments covers every behaviour the collaborators can show,
including behaviour that depends on earlier calls.

`main` ends in one of two ways: `log.Fatal` (print, then `os.Exit(1)`), which
is `Except.error` carrying the call site and the message, or a normal return
(`Except.ok`).  Both carry the final state: local variables, the objects
allocated so far, and the trace.
-/

namespace Blubber

/-! ## Values -/

/-- A non-nil Go `error`, by the text of its `Error()` method. -/
abbrev GoError := String

/-- A Go `[]byte`. -/
abbrev Bytes := List Nat

/-- Go `len` of a string: its number of bytes. -/
def len (s : String) : Nat := s.utf8ByteSize

/-- Go `tls.ClientAuthType`, in the order of the Go constants (zero value first). -/
inductive ClientAuthType where
  | NoClientCert
  | RequestClientCert
  | RequireAnyClientCert
  | VerifyClientCertIfGiven
  | RequireAndVerifyClientCert
  deriving DecidableEq, Repr

/-- Go `tls.VersionTLS12`. -/
def VersionTLS12 : Nat := 0x0303

/-- Go `*rsa.PrivateKey`, by an identifier of the key material. -/
structure RsaPrivateKey where
  id : Nat
  deriving DecidableEq, Repr

/-- The dynamic type of a `crypto.PrivateKey` that `tls.LoadX509KeyPair` can return. -/
inductive PrivateKey where
  | rsa (k : RsaPrivateKey)
  | ecdsa (id : Nat)
  | ed25519 (id : Nat)
  deriving DecidableEq, Repr

/-- Go `tls.Certificate`: the DER chain and the private key. -/
structure TlsCertificate where
  Certificate : List Bytes
  PrivateKey : PrivateKey
  deriving DecidableEq, Repr

/-- Go `*x509.Certificate`, by its raw bytes. -/
structure X509Certificate where
  Raw : Bytes
  deriving DecidableEq, Repr

/-- Address of an `x509.CertPool` object: its index among the pools of the state. -/
abbrev PoolRef := Nat

/-- Address of a `blubberStore` object: its index among the stores of the state. -/
abbrev StoreRef := Nat

/-- The fields of `tls.Config` that `main` touches.  `ClientCAs` and `RootCAs`
are pointers (`none` is nil). -/
structure TlsConfig where
  Certificates : List TlsCertificate
  NameToCertificate : List (String × TlsCertificate)
  ClientAuth : ClientAuthType
  ClientCAs : Option PoolRef
  RootCAs : Option PoolRef
  MinVersion : Nat
  deriving DecidableEq, Repr

/-- The zero value that `new(tls.Config)` points to. -/
def TlsConfig.zero : TlsConfig :=
  { Certificates := [], NameToCertificate := [], ClientAuth := .NoClientCert,
    ClientCAs := none, RootCAs := none, MinVersion := 0 }

/-- Go `*exportedservice.ServiceExporter`. -/
structure ServiceExporter where
  id : Nat
  deriving DecidableEq, Repr

/-- Go `net.Listener`; `addr` is what `l.Addr()` prints as. -/
structure Listener where
  id : Nat
  addr : String
  deriving DecidableEq, Repr

/-- Go `*blubberstore.BlubberDirectoryClient`. -/
structure BlubberDirectoryClient where
  id : Nat
  deriving DecidableEq, Repr

/-- Modelled from the spec: the declaration of `blubberStore` is in another file
of the package; the fields are those of the composite literal at
main.go:174-181 (BackendHandle in §3 of the spec), typed as the variables
assigned to them.  Pointers are `Option` (`none` is nil). -/
structure blubberStore where
  bindHostPort : String
  blobPath : String
  directoryClient : Option BlubberDirectoryClient
  insecure : Bool
  priv : Option RsaPrivateKey
  tlsConfig : Option TlsConfig
  deriving DecidableEq, Repr

/-- Modelled from the spec: the declaration of `RESTAdapter` is in another file
of the package; the one field set at main.go:182-184 is the pointer to the store. -/
structure RESTAdapter where
  store : Option StoreRef
  deriving DecidableEq, Repr

/-- Modelled from the spec: the declaration of `BlubberService` is in another
file of the package; the one field set at main.go:185-187 is the pointer to the store. -/
structure BlubberService where
  store : Option StoreRef
  deriving DecidableEq, Repr

/-- The command-line flags after `flag.Parse()` (main.go:61-90). -/
structure Flags where
  blob_path : String
  doozer_uri : String
  doozer_buri : String
  bind : String
  service_name : String
  cert : String
  key : String
  cacert : String
  insecure : Bool
  directory_service : String
  deriving DecidableEq, Repr

/-! ## External collaborators -/

/-- What each external call returns. -/
structure World where
  /-- Result of `tls.LoadX509KeyPair(certFile, keyFile)` -/
  LoadX509KeyPair : String → String → Except GoError TlsCertificate
  /-- The names (common name and subject alternative names of the leaf) under
  which `BuildNameToCertificate` files a certificate; empty if the leaf does not parse. -/
  certificateNames : TlsCertificate → List String
  /-- Result of `ioutil.ReadFile(filename)` -/
  ReadFile : String → Except GoError Bytes
  /-- The certificates `(*x509.CertPool).AppendCertsFromPEM` finds in PEM data. -/
  pemCertificates : Bytes → List X509Certificate
  /-- Result of `urlconnection.SetupDoozer(buri, uri)` -/
  SetupDoozer : String → String → Option GoError
  /-- Result of `exportedservice.NewExporter(uri, buri)` -/
  NewExporter : String → String → Except GoError ServiceExporter
  /-- Result of `exporter.NewExportedPort(network, ip, service)` -/
  NewExportedPort : ServiceExporter → String → String → String → Except GoError Listener
  /-- Result of `exporter.NewExportedTLSPort(network, ip, service, config)` -/
  NewExportedTLSPort :
    ServiceExporter → String → String → String → TlsConfig → Except GoError Listener
  /-- Result of `net.Listen(network, laddr)` -/
  netListen : String → String → Except GoError Listener
  /-- Result of `tls.Listen(network, laddr, config)` -/
  tlsListen : String → String → TlsConfig → Except GoError Listener
  /-- Result of `blubberstore.NewBlubberDirectoryClient(server, cert, key, cacert, insecure)` -/
  NewBlubberDirectoryClient :
    String → String → String → String → Bool → Except GoError BlubberDirectoryClient
  /-- Result of `rpc.Register(rcvr)` -/
  rpcRegister : BlubberService → Option GoError
  /-- The error `http.Serve(l, nil)` returns when it returns. -/
  httpServe : Listener → Option GoError

/-- One step of a run that is visible outside `main`: a call to a collaborator
(with what it returned) or the construction of one of the three objects. -/
inductive Event where
  | LoadX509KeyPair (certFile keyFile : String) (r : Except GoError TlsCertificate)
  | BuildNameToCertificate
  | NewCertPool (p : PoolRef)
  | ReadFile (filename : String) (r : Except GoError Bytes)
  | AppendCertsFromPEM (p : PoolRef) (pemCerts : Bytes) (ok : Bool)
  | SetupDoozer (buri uri : String) (err : Option GoError)
  | NewExporter (uri buri : String) (r : Except GoError ServiceExporter)
  | NewExportedPort (exporter : ServiceExporter) (network ip service : String)
      (r : Except GoError Listener)
  | NewExportedTLSPort (exporter : ServiceExporter) (network ip service : String)
      (config : TlsConfig) (r : Except GoError Listener)
  | netListen (network laddr : String) (r : Except GoError Listener)
  | tlsListen (network laddr : String) (config : TlsConfig) (r : Except GoError Listener)
  | NewBlubberDirectoryClient (server cert key cacert : String) (insecure : Bool)
      (r : Except GoError BlubberDirectoryClient)
  | logPrint (msg : String)
  | rpcHandleHTTP
  | newBlubberStore (p : StoreRef) (v : blubberStore)
  | newRESTAdapter (v : RESTAdapter)
  | newBlubberService (v : BlubberService)
  | rpcRegister (rcvr : BlubberService) (err : Option GoError)
  | httpHandle (pattern : String) (handler : RESTAdapter)
  | httpServe (l : Listener)
  | logFatal (msg : String)

/-! ## State of `main` -/

/-- The local variables of `main` (main.go:53-59), the objects allocated so far
and the trace. -/
structure St where
  ra : Option RESTAdapter
  bs : Option StoreRef
  srv : Option BlubberService
  config : TlsConfig
  directory_client : Option BlubberDirectoryClient
  rsa_key : Option RsaPrivateKey
  l : Option Listener
  pools : List (List X509Certificate)
  stores : List blubberStore
  trace : List Event

/-- The state after the declarations at main.go:53-59: every pointer nil except
`config`, which points to a fresh zero `tls.Config`. -/
def St.init : St :=
  { ra := none, bs := none, srv := none, config := TlsConfig.zero,
    directory_client := none, rsa_key := none, l := none,
    pools := [], stores := [], trace := [] }

/-- Append an event to the trace. -/
def St.record (s : St) (e : Event) : St :=
  { s with trace := s.trace ++ [e] }

/-- The `log.Fatal` call sites of `main`, in source order. -/
inductive FatalSite where
  | keyPair      -- main.go:102
  | keyType      -- main.go:109
  | caRead       -- main.go:115
  | caParse      -- main.go:118
  | doozer       -- main.go:128
  | exporter     -- main.go:138 and main.go:150
  | bind         -- main.go:158
  | directory    -- main.go:165
  | rpcRegister  -- main.go:191
  | serve        -- main.go:197
  deriving DecidableEq, Repr

/-- A fatal exit: where, and the message logged. -/
structure Fatal where
  site : FatalSite
  msg : String
  deriving DecidableEq, Repr

/-- How a run (or a part of it) ends: `error` is the exit through `log.Fatal`,
`ok` is running on (for `main`: returning). -/
abbrev Result := Except (Fatal × St) St

/-- Go `log.Fatal(args...)`: the message is `fmt.Sprint` of the arguments, which
puts no space between two operands when one of them is a string, as is the case
at every call site of `main`; then the process exits. -/
def logFatal (s : St) (site : FatalSite) (msg : String) : Result :=
  .error (⟨site, msg⟩, s.record (.logFatal msg))

/-! ## `main`, in source order

`main` is one function; it is cut here into its five consecutive parts.
`log.Fatal` does not return, so each part takes the rest of `main` as the
function `rest` and runs it on the paths that fall through to the next
statement. -/

/-- The `if !insecure` statement (main.go:92-123). -/
def tlsSetup (w : World) (f : Flags) (s : St) (rest : St → Result) : Result :=
  if !f.insecure then
    let s := { s with config := { s.config with ClientAuth := .VerifyClientCertIfGiven } }
    let s := { s with config := { s.config with MinVersion := VersionTLS12 } }
    let r := w.LoadX509KeyPair f.cert f.key
    let s := s.record (.LoadX509KeyPair f.cert f.key r)
    match r with
    | .error err => logFatal s .keyPair ("Unable to load X.509 key pair: " ++ err)
    | .ok tlscert =>
      let s := { s with
        config := { s.config with Certificates := s.config.Certificates ++ [tlscert] } }
      -- config.BuildNameToCertificate()
      let s := { s with
        config := { s.config with
          NameToCertificate :=
            s.config.Certificates.flatMap
              (fun c => (w.certificateNames c).map (fun n => (n, c))) } }
      let s := s.record .BuildNameToCertificate
      -- rsa_key, ok = tlscert.PrivateKey.(*rsa.PrivateKey)
      match tlscert.PrivateKey with
      | .rsa k =>
        let s := { s with rsa_key := some k }
        -- config.ClientCAs = x509.NewCertPool()
        let pool : PoolRef := s.pools.length
        let s := { s with pools := s.pools ++ [[]] }
        let s := s.record (.NewCertPool pool)
        let s := { s with config := { s.config with ClientCAs := some pool } }
        let rd := w.ReadFile f.cacert
        let s := s.record (.ReadFile f.cacert rd)
        match rd with
        | .error err => logFatal s .caRead ("Error reading " ++ f.cacert ++ ": " ++ err)
        | .ok certdata =>
          -- config.ClientCAs.AppendCertsFromPEM(certdata)
          let found := w.pemCertificates certdata
          let s := { s with pools := s.pools.modify (fun certs => certs ++ found) pool }
          let ok := !found.isEmpty
          let s := s.record (.AppendCertsFromPEM pool certdata ok)
          if !ok then
            logFatal s .caParse ("Unable to load the X.509 certificates from " ++ f.cacert)
          else
            rest { s with config := { s.config with RootCAs := s.config.ClientCAs } }
      | _ =>
        logFatal s .keyType "Private key type is not RSA."
  else
    rest s

/-- The first `if len(doozer_uri) > 0` statement (main.go:125-130). -/
def doozerSetup (w : World) (f : Flags) (s : St) (rest : St → Result) : Result :=
  if len f.doozer_uri > 0 then
    let err := w.SetupDoozer f.doozer_buri f.doozer_uri
    let s := s.record (.SetupDoozer f.doozer_buri f.doozer_uri err)
    match err with
    | some err => logFatal s .doozer ("Error setting up Doozer: " ++ err)
    | none => rest s
  else
    rest s

/-- The check `if err != nil` that follows the four branches (main.go:157-159),
with the assignment to `l` that precedes it in each of them.  The rest of `main`
is run with the listener now held by `l`. -/
def bindCheck (f : Flags) (s : St) (r : Except GoError Listener)
    (rest : St → Listener → Result) : Result :=
  let s := { s with l := r.toOption }
  match r with
  | .error err => logFatal s .bind ("Unable to bind to " ++ f.bind ++ ": " ++ err)
  | .ok l => rest s l

/-- The four branches that obtain the listener (main.go:132-159). -/
def listenerSetup (w : World) (f : Flags) (s : St) (rest : St → Listener → Result) :
    Result :=
  if f.insecure && decide (len f.doozer_uri > 0) then
    let re := w.NewExporter f.doozer_uri f.doozer_buri
    let s := s.record (.NewExporter f.doozer_uri f.doozer_buri re)
    match re with
    | .error err => logFatal s .exporter ("Error creating port exporter: " ++ err)
    | .ok exporter =>
      let r := w.NewExportedPort exporter "tcp" f.bind f.service_name
      let s := s.record (.NewExportedPort exporter "tcp" f.bind f.service_name r)
      bindCheck f s r rest
  else if f.insecure then
    let r := w.netListen "tcp" f.bind
    let s := s.record (.netListen "tcp" f.bind r)
    bindCheck f s r rest
  else if len f.doozer_uri > 0 then
    let re := w.NewExporter f.doozer_uri f.doozer_buri
    let s := s.record (.NewExporter f.doozer_uri f.doozer_buri re)
    match re with
    | .error err => logFatal s .exporter ("Error creating port exporter: " ++ err)
    | .ok exporter =>
      let r := w.NewExportedTLSPort exporter "tcp" f.bind f.service_name s.config
      let s := s.record (.NewExportedTLSPort exporter "tcp" f.bind f.service_name s.config r)
      bindCheck f s r rest
  else
    let r := w.tlsListen "tcp" f.bind s.config
    let s := s.record (.tlsListen "tcp" f.bind s.config r)
    bindCheck f s r rest

/-- The `if len(directory_service) > 0` statement (main.go:161-168). -/
def directorySetup (w : World) (f : Flags) (s : St) (rest : St → Result) : Result :=
  if len f.directory_service > 0 then
    let r := w.NewBlubberDirectoryClient f.directory_service f.cert f.key f.cacert f.insecure
    let s := s.record
      (.NewBlubberDirectoryClient f.directory_service f.cert f.key f.cacert f.insecure r)
    let s := { s with directory_client := r.toOption }
    match r with
    | .error err =>
      logFatal s .directory
        ("Can't connect to the blubber directory service at " ++ f.directory_service
          ++ ": " ++ err)
    | .ok _ => rest s
  else
    rest s

/-- The end of `main` (main.go:170-198); `l` is the listener held by the variable `l`. -/
def serve (w : World) (f : Flags) (s : St) (l : Listener) : Result :=
  let s := s.record (.logPrint ("Started listening to http://" ++ l.addr))
  let s := s.record .rpcHandleHTTP
  -- bs = &blubberStore{...}
  let store : blubberStore :=
    { bindHostPort := l.addr,
      blobPath := f.blob_path,
      directoryClient := s.directory_client,
      insecure := f.insecure,
      priv := s.rsa_key,
      tlsConfig := some s.config }
  let p : StoreRef := s.stores.length
  let s := { s with stores := s.stores ++ [store], bs := some p }
  let s := s.record (.newBlubberStore p store)
  -- ra = &RESTAdapter{store: bs}
  let ra : RESTAdapter := { store := s.bs }
  let s := { s with ra := some ra }
  let s := s.record (.newRESTAdapter ra)
  -- srv = &BlubberService{store: bs}
  let srv : BlubberService := { store := s.bs }
  let s := { s with srv := some srv }
  let s := s.record (.newBlubberService srv)
  let err := w.rpcRegister srv
  let s := s.record (.rpcRegister srv err)
  match err with
  | some err => logFatal s .rpcRegister ("Failed to register BlubberService: " ++ err)
  | none =>
    let s := s.record (.httpHandle "/" ra)
    let s := s.record (.httpServe l)
    match w.httpServe l with
    | some _ => logFatal s .serve ("Error serving HTTP on " ++ l.addr)
    | none => .ok s

/-- Go `func main()` (main.go:52-199) after `flag.Parse()`. -/
def main (w : World) (f : Flags) : Result :=
  tlsSetup w f St.init fun s =>
  doozerSetup w f s fun s =>
  listenerSetup w f s fun s l =>
  directorySetup w f s fun s =>
  serve w f s l

/-! ## Observations on a run -/

/-- The state a run ends in. -/
def finalState : Result → St
  | .ok s => s
  | .error (_, s) => s

/-- The fatal exit of a run, if it ended in one. -/
def fatalExit : Result → Option Fatal
  | .ok _ => none
  | .error (e, _) => some e

/-- The state `main` ends in. -/
def endState (w : World) (f : Flags) : St := finalState (main w f)

/-- The trace of the run of `main`. -/
def traceOf (w : World) (f : Flags) : List Event := (endState w f).trace

/-- The four calls that create a listener. -/
def Event.isListenerCall : Event → Bool
  | .NewExportedPort .. => true
  | .NewExportedTLSPort .. => true
  | .netListen .. => true
  | .tlsListen .. => true
  | _ => false

/-- The operations of the Service Registrar. -/
def Event.isRegistrarOp : Event → Bool
  | .SetupDoozer .. => true
  | .NewExporter .. => true
  | .NewExportedPort .. => true
  | .NewExportedTLSPort .. => true
  | _ => false

/-- The operations of the Transport Security Builder on key, certificate and
trust store material. -/
def Event.isTlsBuild : Event → Bool
  | .LoadX509KeyPair .. => true
  | .BuildNameToCertificate => true
  | .NewCertPool .. => true
  | .ReadFile .. => true
  | .AppendCertsFromPEM .. => true
  | _ => false

/-- The TLS configuration handed to a listener-creating call, if it takes one. -/
def Event.handedConfig : Event → Option TlsConfig
  | .NewExportedTLSPort _ _ _ _ config _ => some config
  | .tlsListen _ _ config _ => some config
  | _ => none

/-- The listener a listener-creating call returned, if it returned one. -/
def Event.boundListener : Event → Option Listener
  | .NewExportedPort _ _ _ _ r => r.toOption
  | .NewExportedTLSPort _ _ _ _ _ r => r.toOption
  | .netListen _ _ r => r.toOption
  | .tlsListen _ _ _ r => r.toOption
  | _ => none

/-- A listener-creating call that returned a listener. -/
def Event.isBound (e : Event) : Bool := e.boundListener.isSome

/-- A call to a collaborator that returned a non-nil error. -/
def Event.failed : Event → Bool
  | .LoadX509KeyPair _ _ (.error _) => true
  | .ReadFile _ (.error _) => true
  | .SetupDoozer _ _ (some _) => true
  | .NewExporter _ _ (.error _) => true
  | .NewExportedPort _ _ _ _ (.error _) => true
  | .NewExportedTLSPort _ _ _ _ _ (.error _) => true
  | .netListen _ _ (.error _) => true
  | .tlsListen _ _ _ (.error _) => true
  | .NewBlubberDirectoryClient _ _ _ _ _ (.error _) => true
  | .rpcRegister _ (some _) => true
  | _ => false

/-- Calls of `urlconnection.SetupDoozer`. -/
def Event.isSetupDoozer : Event → Bool
  | .SetupDoozer .. => true
  | _ => false

/-- Calls of `exportedservice.NewExporter`. -/
def Event.isNewExporter : Event → Bool
  | .NewExporter .. => true
  | _ => false

/-- Calls of `exporter.NewExportedPort` or `exporter.NewExportedTLSPort`. -/
def Event.isExportedPort : Event → Bool
  | .NewExportedPort .. => true
  | .NewExportedTLSPort .. => true
  | _ => false

/-- Calls of `blubberstore.NewBlubberDirectoryClient`. -/
def Event.isDirectoryOp : Event → Bool
  | .NewBlubberDirectoryClient .. => true
  | _ => false

/-- Calls of `rpc.HandleHTTP`. -/
def Event.isRpcHandleHTTP : Event → Bool
  | .rpcHandleHTTP => true
  | _ => false

/-- Calls of `rpc.Register`. -/
def Event.isRpcRegister : Event → Bool
  | .rpcRegister .. => true
  | _ => false

/-- Calls of `http.Handle`. -/
def Event.isHttpHandle : Event → Bool
  | .httpHandle .. => true
  | _ => false

/-- Calls of `http.Serve`. -/
def Event.isServe : Event → Bool
  | .httpServe .. => true
  | _ => false

/-- The operations that install an RPC or HTTP front-end on the serving layer:
`rpc.HandleHTTP`, `rpc.Register`, `http.Handle`. -/
def Event.isFrontEnd (e : Event) : Bool :=
  e.isRpcHandleHTTP || e.isRpcRegister || e.isHttpHandle

/-- The construction of the `blubberStore` value. -/
def Event.isStoreConstruction : Event → Bool
  | .newBlubberStore .. => true
  | _ => false

/-- The receiver handed to `rpc.Register`. -/
def Event.registeredService : Event → Option BlubberService
  | .rpcRegister rcvr _ => some rcvr
  | _ => none

/-- The handler handed to `http.Handle`. -/
def Event.installedAdapter : Event → Option RESTAdapter
  | .httpHandle _ handler => some handler
  | _ => none

/-- Every event of `tr` that satisfies `late` has an event that satisfies `early`
somewhere before it. -/
def precededBy (early late : Event → Bool) (tr : List Event) : Prop :=
  ∀ pre e post, tr = pre ++ e :: post → late e = true → ∃ x ∈ pre, early x = true

/-- The check of `precededBy` by one pass over the trace. -/
def precededByB (early late : Event → Bool) : List Event → Bool
  | [] => true
  | e :: es => !late e && (early e || precededByB early late es)

/-- The Transport Security Builder finds all its material in order: the key pair
loads, the key is an RSA key, the CA file is read and holds a certificate. -/
def builderSucceeds (w : World) (f : Flags) : Prop :=
  ∃ c k d, w.LoadX509KeyPair f.cert f.key = .ok c ∧ c.PrivateKey = .rsa k ∧
    w.ReadFile f.cacert = .ok d ∧ w.pemCertificates d ≠ []

/-- Startup reaches the listener-creating call: nothing before it was fatal. -/
def reachesListenerStep (w : World) (f : Flags) : Prop :=
  (f.insecure = false → builderSucceeds w f) ∧
  (f.doozer_uri ≠ "" → w.SetupDoozer f.doozer_buri f.doozer_uri = none ∧
    ∃ e, w.NewExporter f.doozer_uri f.doozer_buri = .ok e)

/-- Startup is successful: the serve loop is entered. -/
def startupSucceeds (w : World) (f : Flags) : Prop :=
  (traceOf w f).filter Event.isServe ≠ []

/-! ## Sample collaborators -/

/-- A world in which every collaborator succeeds and the serve loop ends with an error. -/
def World.sample : World :=
  { LoadX509KeyPair := fun _ _ => .ok ⟨[[1]], .rsa ⟨7⟩⟩
    certificateNames := fun _ => ["node"]
    ReadFile := fun _ => .ok [45]
    pemCertificates := fun _ => [⟨[2]⟩]
    SetupDoozer := fun _ _ => none
    NewExporter := fun _ _ => .ok ⟨1⟩
    NewExportedPort := fun _ _ _ _ => .ok ⟨1, "127.0.0.1:4000"⟩
    NewExportedTLSPort := fun _ _ _ _ _ => .ok ⟨2, "127.0.0.1:4000"⟩
    netListen := fun _ _ => .ok ⟨3, "127.0.0.1:4000"⟩
    tlsListen := fun _ _ _ => .ok ⟨4, "127.0.0.1:4000"⟩
    NewBlubberDirectoryClient := fun _ _ _ _ _ => .ok ⟨1⟩
    rpcRegister := fun _ => none
    httpServe := fun _ => some "closed" }

/-- The default flags with key material: secure, not registered. -/
def Flags.sample : Flags :=
  { blob_path := "/b", doozer_uri := "", doozer_buri := "", bind := "[::]:0",
    service_name := "blubber-service", cert := "c.pem", key := "k.pem", cacert := "ca.pem",
    insecure := false, directory_service := "" }

/-- The sample flags with `-insecure`. -/
def Flags.plain : Flags := { Flags.sample with insecure := true }

/-- The four fatal exits of the Transport Security Builder. -/
def FatalSite.isConfig : FatalSite → Bool
  | .keyPair => true
  | .keyType => true
  | .caRead => true
  | .caParse => true
  | _ => false

/-- The first check of the Transport Security Builder that fails, in the order
of the specification: the key pair loads, the key is an RSA key, the
CA file can be read, at least one certificate of it is added to the trust store. -/
def builderFailure (w : World) (f : Flags) : Option FatalSite :=
  match w.LoadX509KeyPair f.cert f.key with
  | .error _ => some .keyPair
  | .ok c =>
    match c.PrivateKey with
    | .rsa _ =>
      match w.ReadFile f.cacert with
      | .error _ => some .caRead
      | .ok d => if (w.pemCertificates d).isEmpty then some .caParse else none
    | _ => some .keyType

/-- The operations that follow the Transport Security Builder: registrar, bind,
directory service, construction of the store, front-end registration, serving. -/
def Event.isAfterBuilder (e : Event) : Bool :=
  e.isRegistrarOp || e.isListenerCall || e.isDirectoryOp || e.isStoreConstruction ||
    e.isFrontEnd || e.isServe

/-- A Service Registrar operation that reported an error. -/
def Event.isRegistrarError (e : Event) : Bool := e.isRegistrarOp && e.failed

/-- The sample world with a key pair whose key is an ECDSA key. -/
def World.ecdsaKey : World :=
  { World.sample with LoadX509KeyPair := fun _ _ => .ok ⟨[[1]], .ecdsa 3⟩ }

/-- The sample world with an unreachable name service. -/
def World.doozerDown : World :=
  { World.sample with SetupDoozer := fun _ _ => some "no route to host" }

/-- The sample flags with a name service to register with. -/
def Flags.registered : Flags :=
  { Flags.sample with doozer_uri := "doozer:?ca=localhost:8046" }

/-- The store constructed by an event, with its address. -/
def Event.constructedStore : Event → Option (StoreRef × blubberStore)
  | .newBlubberStore p v => some (p, v)
  | _ => none

/-- Calls of `rpc.Register` or `http.Handle`: the two operations that hand a front-end
object to the serving layer. -/
def Event.isFrontEndObject (e : Event) : Bool := e.isRpcRegister || e.isHttpHandle

/-- The message `msg` contains the text `part`. -/
def mentions (msg part : String) : Prop := part.data <:+: msg.data

instance (msg part : String) : Decidable (mentions msg part) :=
  inferInstanceAs (Decidable (part.data <:+: msg.data))

/-- The configured artifacts a fatal message could name: the three file paths,
the bind address, the two name-service addresses, the directory-service address
and the service name. -/
def Flags.artifacts (f : Flags) : List String :=
  [f.cert, f.key, f.cacert, f.bind, f.doozer_uri, f.doozer_buri, f.directory_service,
    f.service_name]

/-- Calls of `x509.NewCertPool`. -/
def Event.isNewCertPool : Event → Bool
  | .NewCertPool .. => true
  | _ => false

/-- The sample world with a key pair that does not load. -/
def World.noKeyPair : World :=
  { World.sample with
    LoadX509KeyPair := fun _ _ =>
      .error "tls: failed to find any PEM data in certificate input" }

/-- Flags with every artifact set. -/
def Flags.full : Flags :=
  { blob_path := "/b", doozer_uri := "doozer:?ca=localhost:8046",
    doozer_buri := "doozer:?ca=boothost:8046", bind := "[::]:0",
    service_name := "blubber-service", cert := "c.pem", key := "k.pem", cacert := "ca.pem",
    insecure := false, directory_service := "directory.example:1234" }

/-- The error a listener-creating call returned, if it returned one. -/
def Event.listenerError : Event → Option GoError
  | .NewExportedPort _ _ _ _ (.error err) => some err
  | .NewExportedTLSPort _ _ _ _ _ (.error err) => some err
  | .netListen _ _ (.error err) => some err
  | .tlsListen _ _ _ (.error err) => some err
  | _ => none

/-! ## Lemmas -/

theorem len_eq_zero_iff (s : String) : len s = 0 ↔ s = "" := by
  cases s with
  | mk cs =>
    cases cs with
    | nil => simp [len, String.utf8ByteSize, String.utf8ByteSize.go]
    | cons c cs =>
      have := Char.utf8Size_pos c
      simp [len, String.utf8ByteSize, String.utf8ByteSize.go]
      constructor
      · intro h; omega
      · intro h; exact absurd h (by simp [String.ext_iff])

theorem len_pos_iff (s : String) : 0 < len s ↔ s ≠ "" := by
  rw [Ne, ← len_eq_zero_iff]; omega

theorem precededByB_iff (early late : Event → Bool) (tr : List Event) :
    precededByB early late tr = true ↔ precededBy early late tr := by
  induction tr with
  | nil =>
    simp [precededByB, precededBy]
  | cons a tr ih =>
    simp only [precededByB, Bool.and_eq_true, Bool.not_eq_true', Bool.or_eq_true, ih]
    constructor
    · rintro ⟨hl, h⟩ pre e post heq hlate
      cases pre with
      | nil =>
        simp only [List.nil_append, List.cons.injEq] at heq
        rw [← heq.1] at hlate
        simp [hl] at hlate
      | cons b pre =>
        simp only [List.cons_append, List.cons.injEq] at heq
        obtain ⟨rfl, rfl⟩ := heq
        rcases h with h | h
        · exact ⟨a, by simp, h⟩
        · obtain ⟨x, hx, hxe⟩ := h pre e post rfl hlate
          exact ⟨x, by simp [hx], hxe⟩
    · intro h
      refine ⟨?_, ?_⟩
      · by_contra hl
        simp only [Bool.not_eq_false] at hl
        obtain ⟨x, hx, _⟩ := h [] a tr rfl hl
        simp at hx
      · by_cases he : early a = true
        · exact Or.inl he
        · right
          intro pre e post heq hlate
          obtain ⟨x, hx, hxe⟩ := h (a :: pre) e post (by simp [heq]) hlate
          simp only [List.mem_cons] at hx
          rcases hx with rfl | hx
          · exact absurd hxe he
          · exact ⟨x, hx, hxe⟩

theorem mentions_append_right (a p : String) : mentions (a ++ p) p :=
  ⟨a.data, [], by simp [String.data_append]⟩

theorem mentions_append_mid (a p b c : String) : mentions (a ++ p ++ b ++ c) p :=
  ⟨a.data, b.data ++ c.data, by simp [String.data_append]⟩

/-- The builder succeeds exactly when none of its four checks fails. -/
theorem builderSucceeds_iff (w : World) (f : Flags) :
    builderSucceeds w f ↔ builderFailure w f = none := by
  unfold builderSucceeds builderFailure
  repeat' split
  all_goals simp_all

set_option maxHeartbeats 1000000 in
/-- The condition `reachesListenerStep` on the collaborators holds exactly on
the runs of `main` whose trace has a listener-creating call. -/
theorem reachesListenerStep_iff (w : World) (f : Flags) :
    reachesListenerStep w f ↔ (traceOf w f).filter Event.isListenerCall ≠ [] := by
  have hd' := len_pos_iff f.doozer_uri
  unfold reachesListenerStep builderSucceeds traceOf endState
  generalize hm : main w f = r
  cases hi : f.insecure <;> by_cases hd : 0 < len f.doozer_uri <;>
    by_cases hs : 0 < len f.directory_service <;>
  simp only [main, tlsSetup, doozerSetup, listenerSetup, directorySetup, serve,
      bindCheck, logFatal, St.record, St.init, hi, hd, hs, Bool.not_true, Bool.not_false,
      Bool.false_eq_true, if_true, if_false, Bool.true_and, Bool.false_and, decide_True,
      decide_False, decide_eq_true_eq, Bool.not_not, Bool.not_eq_true'] at hm
  all_goals (repeat' split at hm)
  all_goals subst hm
  all_goals simp_all [finalState, Event.isListenerCall]

/-! ## Claims -/

set_option maxHeartbeats 1000000 in
/-- C1 (Listener Factory routing): on every run that reaches the listener step,
the listener-creating calls of the trace are exactly one call, the one the pair
(insecure, doozer_uri non-empty) selects, with the arguments of the source, and
its result is what the variable `l` holds; on every run, when doozer_uri is
empty no Service Registrar operation occurs in the trace. -/
theorem listener_routing (w : World) (f : Flags) :
    (reachesListenerStep w f →
      (f.insecure = true → f.doozer_uri ≠ "" →
        ∃ exporter, w.NewExporter f.doozer_uri f.doozer_buri = .ok exporter ∧
          (traceOf w f).filter Event.isListenerCall =
            [.NewExportedPort exporter "tcp" f.bind f.service_name
              (w.NewExportedPort exporter "tcp" f.bind f.service_name)] ∧
          (endState w f).l =
            (w.NewExportedPort exporter "tcp" f.bind f.service_name).toOption) ∧
      (f.insecure = true → f.doozer_uri = "" →
        (traceOf w f).filter Event.isListenerCall =
          [.netListen "tcp" f.bind (w.netListen "tcp" f.bind)] ∧
        (endState w f).l = (w.netListen "tcp" f.bind).toOption) ∧
      (f.insecure = false → f.doozer_uri ≠ "" →
        ∃ exporter, w.NewExporter f.doozer_uri f.doozer_buri = .ok exporter ∧
          (traceOf w f).filter Event.isListenerCall =
            [.NewExportedTLSPort exporter "tcp" f.bind f.service_name (endState w f).config
              (w.NewExportedTLSPort exporter "tcp" f.bind f.service_name
                (endState w f).config)] ∧
          (endState w f).l =
            (w.NewExportedTLSPort exporter "tcp" f.bind f.service_name
              (endState w f).config).toOption) ∧
      (f.insecure = false → f.doozer_uri = "" →
        (traceOf w f).filter Event.isListenerCall =
          [.tlsListen "tcp" f.bind (endState w f).config
            (w.tlsListen "tcp" f.bind (endState w f).config)] ∧
        (endState w f).l = (w.tlsListen "tcp" f.bind (endState w f).config).toOption)) ∧
    (f.doozer_uri = "" → (traceOf w f).filter Event.isRegistrarOp = []) := by
  have hd' := len_pos_iff f.doozer_uri
  unfold reachesListenerStep builderSucceeds traceOf endState
  generalize hm : main w f = r
  cases hi : f.insecure <;> by_cases hd : 0 < len f.doozer_uri <;>
    by_cases hs : 0 < len f.directory_service <;>
  simp only [main, tlsSetup, doozerSetup, listenerSetup, directorySetup, serve,
      bindCheck, logFatal, St.record, St.init, hi, hd, hs, Bool.not_true, Bool.not_false,
      Bool.false_eq_true, if_true, if_false, Bool.true_and, Bool.false_and, decide_True,
      decide_False, decide_eq_true_eq, Bool.not_not, Bool.not_eq_true'] at hm
  all_goals (repeat' split at hm)
  all_goals subst hm
  all_goals simp_all [finalState, Event.isListenerCall, Event.isRegistrarOp, TlsConfig.zero]

/-- Witness for C1: the sample run is secure and unregistered and reaches the
listener step; its one listener-creating call is `tls.Listen("tcp", bind, config)`,
and no registrar operation occurs. -/
theorem listener_routing_witness :
    reachesListenerStep World.sample Flags.sample ∧
    (traceOf World.sample Flags.sample).filter Event.isListenerCall =
      [.tlsListen "tcp" "[::]:0" (endState World.sample Flags.sample).config
        (.ok ⟨4, "127.0.0.1:4000"⟩)] ∧
    (traceOf World.sample Flags.sample).filter Event.isRegistrarOp = [] :=
  have h : reachesListenerStep World.sample Flags.sample :=
    ⟨fun _ => ⟨_, _, _, rfl, rfl, rfl, by decide⟩, fun h => absurd rfl h⟩
  ⟨h, (((listener_routing World.sample Flags.sample).1 h).2.2.2 rfl rfl).1,
    (listener_routing World.sample Flags.sample).2 rfl⟩

/-- Counterexample for C2: in the insecure sample run the store that is built
does carry a TLS configuration, the zero `tls.Config` that `main` allocates at
its first lines whatever the flags are. -/
theorem insecure_store_config_counterexample :
    ¬ (Flags.plain.insecure = true →
        (traceOf World.sample Flags.plain).filter Event.isTlsBuild = [] ∧
        (traceOf World.sample Flags.plain).filterMap Event.handedConfig = [] ∧
        ∀ bs ∈ (endState World.sample Flags.plain).stores,
          bs.tlsConfig = none ∧ bs.priv = none) := by
  have hstore : ¬ ∀ bs ∈ (endState World.sample Flags.plain).stores,
      bs.tlsConfig = none ∧ bs.priv = none := by decide
  exact fun h => hstore (h rfl).2.2

set_option maxHeartbeats 1000000 in
/-- C2, amended: when insecure is true, whatever the other flags are, no key,
certificate or trust-store operation is performed, no TLS configuration is
passed to a listener-creating call, the configuration `main` allocated stays the
zero `tls.Config`, no private key is held and no trust store exists; every store
that is built carries no private key and, in its tlsConfig field, that
untouched zero configuration. -/
theorem insecure_no_transport_config (w : World) (f : Flags) (hi : f.insecure = true) :
    (traceOf w f).filter Event.isTlsBuild = [] ∧
    (traceOf w f).filterMap Event.handedConfig = [] ∧
    (endState w f).config = TlsConfig.zero ∧
    (endState w f).rsa_key = none ∧
    (endState w f).pools = [] ∧
    ∀ bs ∈ (endState w f).stores,
      bs.priv = none ∧ bs.tlsConfig = some TlsConfig.zero ∧ bs.insecure = true := by
  unfold traceOf endState
  generalize hm : main w f = r
  by_cases hd : 0 < len f.doozer_uri <;>
    by_cases hs : 0 < len f.directory_service <;>
  simp only [main, tlsSetup, doozerSetup, listenerSetup, directorySetup, serve,
      bindCheck, logFatal, St.record, St.init, hi, hd, hs, Bool.not_true, Bool.not_false,
      Bool.false_eq_true, if_true, if_false, Bool.true_and, Bool.false_and, decide_True,
      decide_False, decide_eq_true_eq, Bool.not_not, Bool.not_eq_true'] at hm
  all_goals (repeat' split at hm)
  all_goals subst hm
  all_goals simp_all [finalState, Event.isTlsBuild, Event.handedConfig]

/-- Witness for C2, amended: the insecure sample run builds one store, without
a key and with the zero configuration. -/
theorem insecure_no_transport_config_witness :
    Flags.plain.insecure = true ∧
    (endState World.sample Flags.plain).stores.map blubberStore.tlsConfig
      = [some TlsConfig.zero] ∧
    ∀ bs ∈ (endState World.sample Flags.plain).stores,
      bs.priv = none ∧ bs.tlsConfig = some TlsConfig.zero ∧ bs.insecure = true :=
  ⟨rfl, by decide,
    (insecure_no_transport_config World.sample Flags.plain rfl).2.2.2.2.2⟩


set_option maxHeartbeats 1000000 in
/-- C3 (Transport Security Builder failure): with insecure = false, the
configuration error main exits with, if any, is the first failing check in the
order key pair load, key type, CA file read, CA certificates, and there is none
when every check passes; when a check fails the trace holds no registrar, bind,
directory-service, store or front-end operation, no configuration was handed to
a listener call and no store exists. -/
theorem builder_failure (w : World) (f : Flags) (hi : f.insecure = false) :
    ((fatalExit (main w f)).map Fatal.site).filter FatalSite.isConfig = builderFailure w f ∧
    (builderFailure w f ≠ none →
      (traceOf w f).filter Event.isAfterBuilder = [] ∧
      (traceOf w f).filterMap Event.handedConfig = [] ∧
      (endState w f).stores = []) := by
  unfold traceOf endState builderFailure
  generalize hm : main w f = r
  by_cases hd : 0 < len f.doozer_uri <;>
    by_cases hs : 0 < len f.directory_service <;>
  simp only [main, tlsSetup, doozerSetup, listenerSetup, directorySetup, serve,
      bindCheck, logFatal, St.record, St.init, hi, hd, hs, Bool.not_true, Bool.not_false,
      Bool.false_eq_true, if_true, if_false, Bool.true_and, Bool.false_and, decide_True,
      decide_False, decide_eq_true_eq, Bool.not_not, Bool.not_eq_true'] at hm
  all_goals (repeat' split at hm)
  all_goals subst hm
  all_goals simp_all [finalState, fatalExit, Option.filter, FatalSite.isConfig,
    Event.isAfterBuilder, Event.isRegistrarOp, Event.isListenerCall, Event.isDirectoryOp,
    Event.isStoreConstruction, Event.isFrontEnd, Event.isServe, Event.isRpcHandleHTTP,
    Event.isRpcRegister, Event.isHttpHandle, Event.handedConfig]

/-- Witness for C3: with an ECDSA key the secure sample run exits at the key
type check. -/
theorem builder_failure_witness :
    Flags.sample.insecure = false ∧
    ((fatalExit (main World.ecdsaKey Flags.sample)).map Fatal.site).filter FatalSite.isConfig
      = some .keyType :=
  ⟨rfl, (builder_failure World.ecdsaKey Flags.sample rfl).1⟩

set_option maxHeartbeats 1000000 in
/-- C4 (registrar error is fatal): if registration is requested and a registrar
operation of the run reported an error, then for both values of insecure main
exits fatally at the name-service, exporter or bind check, right after the
failing operation; every registrar operation was invoked at most once; no
front-end was registered, the serve loop was not entered and no store was
constructed. -/
theorem registrar_error_fatal (w : World) (f : Flags) (hreq : f.doozer_uri ≠ "")
    (herr : (traceOf w f).filter Event.isRegistrarError ≠ []) :
    (∃ e, fatalExit (main w f) = some e ∧
      (e.site = .doozer ∨ e.site = .exporter ∨ e.site = .bind)) ∧
    (∃ e msg rest, (traceOf w f).reverse = .logFatal msg :: e :: rest ∧
      e.isRegistrarError = true) ∧
    (traceOf w f).countP Event.isSetupDoozer ≤ 1 ∧
    (traceOf w f).countP Event.isNewExporter ≤ 1 ∧
    (traceOf w f).countP Event.isExportedPort ≤ 1 ∧
    (traceOf w f).filter (fun e => e.isFrontEnd || e.isServe) = [] ∧
    (traceOf w f).filter Event.isStoreConstruction = [] ∧
    (endState w f).stores = [] := by
  have hd : 0 < len f.doozer_uri := (len_pos_iff _).2 hreq
  revert herr
  unfold traceOf endState
  generalize hm : main w f = r
  cases hi : f.insecure <;>
    by_cases hs : 0 < len f.directory_service <;>
  simp only [main, tlsSetup, doozerSetup, listenerSetup, directorySetup, serve,
      bindCheck, logFatal, St.record, St.init, hi, hd, hs, Bool.not_true, Bool.not_false,
      Bool.false_eq_true, if_true, if_false, Bool.true_and, Bool.false_and, decide_True,
      decide_False, decide_eq_true_eq, Bool.not_not, Bool.not_eq_true'] at hm
  all_goals (repeat' split at hm)
  all_goals subst hm
  all_goals simp_all [finalState, fatalExit, Event.isRegistrarError, Event.failed,
    Event.isRegistrarOp, Event.isSetupDoozer, Event.isNewExporter, Event.isExportedPort,
    Event.isStoreConstruction, Event.isFrontEnd, Event.isServe, Event.isRpcHandleHTTP,
    Event.isRpcRegister, Event.isHttpHandle]

/-- Witness for C4: with the name service down, the registered sample run exits
at the name-service check. -/
theorem registrar_error_fatal_witness :
    Flags.registered.doozer_uri ≠ "" ∧
    (traceOf World.doozerDown Flags.registered).filter Event.isRegistrarError ≠ [] ∧
    (traceOf World.doozerDown Flags.registered).filter (fun e => e.isFrontEnd || e.isServe) = [] ∧
    (endState World.doozerDown Flags.registered).stores = [] :=
  have h1 : Flags.registered.doozer_uri ≠ "" := by decide
  have h2 : (traceOf World.doozerDown Flags.registered).filter Event.isRegistrarError ≠ [] :=
    List.ne_nil_of_length_pos (by decide)
  have h := registrar_error_fatal World.doozerDown Flags.registered h1 h2
  ⟨h1, h2, h.2.2.2.2.2.1, h.2.2.2.2.2.2.2⟩


/-- Counterexample for C5: in the sample run `rpc.HandleHTTP`, one of the
operations that install a front-end on the serving layer, occurs before the
store is constructed. -/
theorem front_end_before_store_counterexample :
    ¬ precededBy Event.isStoreConstruction Event.isFrontEnd
        (traceOf World.sample Flags.sample) := by
  rw [← precededByB_iff]
  decide

set_option maxHeartbeats 1000000 in
/-- C5, amended: in every run of main the listener is bound before
`rpc.HandleHTTP`, before the store is constructed and before `rpc.Register` and
`http.Handle`; the store is constructed before `rpc.Register` and `http.Handle`
(and after `rpc.HandleHTTP`); `http.Serve` occurs after `rpc.HandleHTTP`,
`rpc.Register` and `http.Handle`, each of which occurs at most once. -/
theorem startup_ordering (w : World) (f : Flags) :
    precededBy Event.isBound Event.isFrontEnd (traceOf w f) ∧
    precededBy Event.isBound Event.isStoreConstruction (traceOf w f) ∧
    precededBy Event.isRpcHandleHTTP Event.isStoreConstruction (traceOf w f) ∧
    precededBy Event.isStoreConstruction Event.isFrontEndObject (traceOf w f) ∧
    precededBy Event.isRpcHandleHTTP Event.isServe (traceOf w f) ∧
    precededBy Event.isRpcRegister Event.isServe (traceOf w f) ∧
    precededBy Event.isHttpHandle Event.isServe (traceOf w f) ∧
    (traceOf w f).countP Event.isRpcHandleHTTP ≤ 1 ∧
    (traceOf w f).countP Event.isRpcRegister ≤ 1 ∧
    (traceOf w f).countP Event.isHttpHandle ≤ 1 := by
  simp only [← precededByB_iff]
  unfold traceOf endState
  generalize hm : main w f = r
  cases hi : f.insecure <;> by_cases hd : 0 < len f.doozer_uri <;>
    by_cases hs : 0 < len f.directory_service <;>
  simp only [main, tlsSetup, doozerSetup, listenerSetup, directorySetup, serve,
      bindCheck, logFatal, St.record, St.init, hi, hd, hs, Bool.not_true, Bool.not_false,
      Bool.false_eq_true, if_true, if_false, Bool.true_and, Bool.false_and, decide_True,
      decide_False, decide_eq_true_eq, Bool.not_not, Bool.not_eq_true'] at hm
  all_goals (repeat' split at hm)
  all_goals subst hm
  all_goals simp only [finalState, List.nil_append, List.cons_append, List.append_assoc]
  all_goals (try simp only [*])
  all_goals (refine ⟨?_, ?_, ?_, ?_, ?_, ?_, ?_, ?_, ?_, ?_⟩ <;> first | rfl | exact Nat.le_of_ble_eq_true rfl)

set_option maxHeartbeats 1000000 in
/-- C6 (recorded bind address): in every successful startup exactly one store
exists and its bindHostPort is the address reported by the listener that the
listener-creating call returned, which is also the listener held by `l`,
whatever the bind flag is; the store is constructed only after a
listener-creating call has returned a listener. -/
theorem bind_address (w : World) (f : Flags) (hs : startupSucceeds w f) :
    (endState w f).stores.map blubberStore.bindHostPort =
      ((traceOf w f).filterMap Event.boundListener).map Listener.addr ∧
    ((traceOf w f).filterMap Event.boundListener) = (endState w f).l.toList ∧
    (endState w f).stores.length = 1 ∧
    precededBy Event.isBound Event.isStoreConstruction (traceOf w f) := by
  revert hs
  simp only [← precededByB_iff]
  unfold startupSucceeds traceOf endState
  generalize hm : main w f = r
  cases hi : f.insecure <;> by_cases hd : 0 < len f.doozer_uri <;>
    by_cases hs : 0 < len f.directory_service <;>
  simp only [main, tlsSetup, doozerSetup, listenerSetup, directorySetup, serve,
      bindCheck, logFatal, St.record, St.init, hi, hd, hs, Bool.not_true, Bool.not_false,
      Bool.false_eq_true, if_true, if_false, Bool.true_and, Bool.false_and, decide_True,
      decide_False, decide_eq_true_eq, Bool.not_not, Bool.not_eq_true'] at hm
  all_goals (repeat' split at hm)
  all_goals subst hm
  all_goals simp only [finalState, List.nil_append, List.cons_append, List.append_assoc]
  all_goals (try simp only [*])
  all_goals intro hs
  all_goals first
    | exact absurd rfl hs
    | exact ⟨rfl, rfl, rfl, rfl⟩

/-- Witness for C6: the sample run asks for `[::]:0`; the listener reports
`127.0.0.1:4000`, and that is the address the store records. -/
theorem bind_address_witness :
    startupSucceeds World.sample Flags.sample ∧
    Flags.sample.bind = "[::]:0" ∧
    (endState World.sample Flags.sample).stores.map blubberStore.bindHostPort
      = ["127.0.0.1:4000"] :=
  have hs : startupSucceeds World.sample Flags.sample := List.ne_nil_of_length_pos (by decide)
  ⟨hs, rfl, (bind_address World.sample Flags.sample hs).1.trans (by decide)⟩

set_option maxHeartbeats 1000000 in
/-- C7 (Service Composition): in every successful startup exactly one store is
constructed, at address 0, and it is the one store that exists; exactly one
BlubberService is registered and exactly one RESTAdapter is installed, and the
store pointer of each is that address. -/
theorem single_store (w : World) (f : Flags) (hs : startupSucceeds w f) :
    ((traceOf w f).filterMap Event.constructedStore).map Prod.fst = [0] ∧
    ((traceOf w f).filterMap Event.constructedStore).map Prod.snd = (endState w f).stores ∧
    (endState w f).stores.length = 1 ∧
    (traceOf w f).filterMap Event.registeredService = [{ store := some 0 }] ∧
    (traceOf w f).filterMap Event.installedAdapter = [{ store := some 0 }] ∧
    (endState w f).bs = some 0 := by
  revert hs
  unfold startupSucceeds traceOf endState
  generalize hm : main w f = r
  cases hi : f.insecure <;> by_cases hd : 0 < len f.doozer_uri <;>
    by_cases hs : 0 < len f.directory_service <;>
  simp only [main, tlsSetup, doozerSetup, listenerSetup, directorySetup, serve,
      bindCheck, logFatal, St.record, St.init, hi, hd, hs, Bool.not_true, Bool.not_false,
      Bool.false_eq_true, if_true, if_false, Bool.true_and, Bool.false_and, decide_True,
      decide_False, decide_eq_true_eq, Bool.not_not, Bool.not_eq_true'] at hm
  all_goals (repeat' split at hm)
  all_goals subst hm
  all_goals simp only [finalState, List.nil_append, List.cons_append, List.append_assoc]
  all_goals (try simp only [*])
  all_goals intro hs
  all_goals first
    | exact absurd rfl hs
    | exact ⟨rfl, rfl, rfl, rfl, rfl, rfl⟩

/-- Witness for C7: the sample run is a successful startup; both front-ends
point to the store at address 0. -/
theorem single_store_witness :
    startupSucceeds World.sample Flags.sample ∧
    (traceOf World.sample Flags.sample).filterMap Event.registeredService
      = [{ store := some 0 }] ∧
    (traceOf World.sample Flags.sample).filterMap Event.installedAdapter
      = [{ store := some 0 }] :=
  have hs : startupSucceeds World.sample Flags.sample := List.ne_nil_of_length_pos (by decide)
  ⟨hs, (single_store World.sample Flags.sample hs).2.2.2.1,
    (single_store World.sample Flags.sample hs).2.2.2.2.1⟩


set_option maxHeartbeats 1000000 in
/-- C8 (client-certificate policy and protocol floor): on every run with
insecure = false that reaches the listener step, exactly one TLS configuration
is handed to a listener-creating call; it is the configuration main holds, its
client-certificate policy is VerifyClientCertIfGiven (neither
RequireAndVerifyClientCert nor NoClientCert), its minimum version is TLS 1.2 and
its certificate list is exactly the key pair that was loaded. -/
theorem transport_config_policy (w : World) (f : Flags) (hi : f.insecure = false)
    (hr : reachesListenerStep w f) :
    (traceOf w f).filterMap Event.handedConfig = [(endState w f).config] ∧
    (endState w f).config.ClientAuth = .VerifyClientCertIfGiven ∧
    (endState w f).config.ClientAuth ≠ .RequireAndVerifyClientCert ∧
    (endState w f).config.ClientAuth ≠ .NoClientCert ∧
    (endState w f).config.MinVersion = VersionTLS12 ∧
    (endState w f).config.Certificates.map Except.ok = [w.LoadX509KeyPair f.cert f.key] := by
  obtain ⟨hb, hr⟩ := hr
  obtain ⟨c, k, d, hc, hk, hrd, hp⟩ := hb hi
  have hd' := len_pos_iff f.doozer_uri
  unfold traceOf endState
  generalize hm : main w f = r
  by_cases hd : 0 < len f.doozer_uri <;>
    by_cases hs : 0 < len f.directory_service <;>
  simp only [main, tlsSetup, doozerSetup, listenerSetup, directorySetup, serve,
      bindCheck, logFatal, St.record, St.init, hi, hd, hs, Bool.not_true, Bool.not_false,
      Bool.false_eq_true, if_true, if_false, Bool.true_and, Bool.false_and, decide_True,
      decide_False, decide_eq_true_eq, Bool.not_not, Bool.not_eq_true'] at hm
  all_goals (repeat' split at hm)
  all_goals subst hm
  all_goals simp_all [finalState, Event.handedConfig, TlsConfig.zero]

/-- Witness for C8: the one configuration the secure sample run hands to
`tls.Listen` asks for TLS 1.2 and verifies a client certificate only if given. -/
theorem transport_config_policy_witness :
    Flags.sample.insecure = false ∧ reachesListenerStep World.sample Flags.sample ∧
    (traceOf World.sample Flags.sample).filterMap Event.handedConfig
      = [(endState World.sample Flags.sample).config] ∧
    (endState World.sample Flags.sample).config.ClientAuth = .VerifyClientCertIfGiven ∧
    (endState World.sample Flags.sample).config.MinVersion = 0x0303 :=
  have h : reachesListenerStep World.sample Flags.sample :=
    ⟨fun _ => ⟨_, _, _, rfl, rfl, rfl, by decide⟩, fun h => absurd rfl h⟩
  have t := transport_config_policy World.sample Flags.sample rfl h
  ⟨rfl, h, t.1, t.2.1, t.2.2.2.2.1⟩

set_option maxHeartbeats 1000000 in
/-- C9 (symmetric trust): on every run with insecure = false in which the
builder succeeds, RootCAs and ClientCAs of the configuration are the same
pointer, to the one trust store that was allocated (empty, by NewCertPool), and
that store holds exactly the certificates found in the CA file. -/
theorem symmetric_trust (w : World) (f : Flags) (hi : f.insecure = false)
    (hb : builderSucceeds w f) :
    (endState w f).config.RootCAs = (endState w f).config.ClientCAs ∧
    (endState w f).config.ClientCAs = some 0 ∧
    (traceOf w f).filter Event.isNewCertPool = [.NewCertPool 0] ∧
    (endState w f).pools.map Except.ok = [(w.ReadFile f.cacert).map w.pemCertificates] ∧
    (∀ bs ∈ (endState w f).stores, bs.tlsConfig = some (endState w f).config) := by
  obtain ⟨c, k, d, hc, hk, hrd, hp⟩ := hb
  unfold traceOf endState
  generalize hm : main w f = r
  by_cases hd : 0 < len f.doozer_uri <;>
    by_cases hs : 0 < len f.directory_service <;>
  simp only [main, tlsSetup, doozerSetup, listenerSetup, directorySetup, serve,
      bindCheck, logFatal, St.record, St.init, hi, hd, hs, Bool.not_true, Bool.not_false,
      Bool.false_eq_true, if_true, if_false, Bool.true_and, Bool.false_and, decide_True,
      decide_False, decide_eq_true_eq, Bool.not_not, Bool.not_eq_true'] at hm
  all_goals (repeat' split at hm)
  all_goals subst hm
  all_goals simp_all [finalState, Event.isNewCertPool, TlsConfig.zero, Except.map,
    List.modify, List.modifyHead]

/-- Witness for C9: in the secure sample run both trust-store pointers are the
store at address 0, which holds the one certificate of the CA file. -/
theorem symmetric_trust_witness :
    Flags.sample.insecure = false ∧ builderSucceeds World.sample Flags.sample ∧
    (endState World.sample Flags.sample).config.RootCAs = some 0 ∧
    (endState World.sample Flags.sample).config.ClientCAs = some 0 ∧
    (endState World.sample Flags.sample).pools = [[⟨[2]⟩]] :=
  have hb : builderSucceeds World.sample Flags.sample := ⟨_, _, _, rfl, rfl, rfl, by decide⟩
  have t := symmetric_trust World.sample Flags.sample rfl hb
  ⟨rfl, hb, t.1.trans t.2.1, t.2.1, by decide⟩


set_option maxRecDepth 100000 in
/-- Counterexample for C10: when the key pair does not load, the message main
logs is the fixed text followed by the collaborator's error; it contains none of
the configured file paths, addresses or names. -/
theorem fatal_message_counterexample :
    ¬ (∀ e, fatalExit (main World.noKeyPair Flags.full) = some e →
        ∃ a ∈ Flags.full.artifacts, mentions e.msg a) := by
  intro h
  have h1 := h ⟨.keyPair,
    "Unable to load X.509 key pair: tls: failed to find any PEM data in certificate input"⟩ rfl
  revert h1
  decide

set_option maxHeartbeats 1000000 in
/-- C10, amended: every fatal exit ends the run at once, the logged message
being the last event of the trace, and the message is exactly the text of its
call site.  It contains the configured artifact at four of the failure points:
the CA file path when the CA file cannot be read or holds no certificate, the
bind address when the listener cannot be obtained, the directory-service address
when the directory service cannot be reached; there the artifact stands between
a fixed text and the error the collaborator returned (no error for the empty CA
file).  At the other points the message is a fixed text followed by the error
the failing collaborator returned (key pair load, name-service setup, exporter
creation, RPC registration), a fixed text alone (key type), or a fixed text
followed by the address the listener reports (serve loop). -/
theorem fatal_message (w : World) (f : Flags) (e : Fatal)
    (h : fatalExit (main w f) = some e) :
    (traceOf w f).getLast? = some (.logFatal e.msg) ∧
    match e.site with
    | .keyPair => ∃ err, w.LoadX509KeyPair f.cert f.key = .error err ∧
        e.msg = "Unable to load X.509 key pair: " ++ err
    | .keyType => e.msg = "Private key type is not RSA."
    | .caRead => mentions e.msg f.cacert ∧
        ∃ err, w.ReadFile f.cacert = .error err ∧
          e.msg = "Error reading " ++ f.cacert ++ ": " ++ err
    | .caParse => mentions e.msg f.cacert ∧
        e.msg = "Unable to load the X.509 certificates from " ++ f.cacert
    | .doozer => ∃ err, w.SetupDoozer f.doozer_buri f.doozer_uri = some err ∧
        e.msg = "Error setting up Doozer: " ++ err
    | .exporter => ∃ err, w.NewExporter f.doozer_uri f.doozer_buri = .error err ∧
        e.msg = "Error creating port exporter: " ++ err
    | .bind => mentions e.msg f.bind ∧
        ∃ err, (traceOf w f).filterMap Event.listenerError = [err] ∧
          e.msg = "Unable to bind to " ++ f.bind ++ ": " ++ err
    | .directory => mentions e.msg f.directory_service ∧
        ∃ err, w.NewBlubberDirectoryClient f.directory_service f.cert f.key f.cacert
            f.insecure = .error err ∧
          e.msg = "Can't connect to the blubber directory service at "
            ++ f.directory_service ++ ": " ++ err
    | .rpcRegister => ∃ err, w.rpcRegister { store := some 0 } = some err ∧
        e.msg = "Failed to register BlubberService: " ++ err
    | .serve => ∃ l, (endState w f).l = some l ∧ e.msg = "Error serving HTTP on " ++ l.addr := by
  revert h
  unfold traceOf endState
  generalize hm : main w f = r
  cases hi : f.insecure <;> by_cases hd : 0 < len f.doozer_uri <;>
    by_cases hs : 0 < len f.directory_service <;>
  simp only [main, tlsSetup, doozerSetup, listenerSetup, directorySetup, serve,
      bindCheck, logFatal, St.record, St.init, hi, hd, hs, Bool.not_true, Bool.not_false,
      Bool.false_eq_true, if_true, if_false, Bool.true_and, Bool.false_and, decide_True,
      decide_False, decide_eq_true_eq, Bool.not_not, Bool.not_eq_true'] at hm
  all_goals (repeat' split at hm)
  all_goals subst hm
  all_goals simp only [finalState, fatalExit, List.nil_append, List.cons_append,
    List.append_assoc]
  all_goals intro h
  all_goals first
    | exact Option.noConfusion h
    | skip
  all_goals (cases h)
  all_goals simp_all [Except.toOption, Event.listenerError, mentions_append_right,
    mentions_append_mid]

/-- Witness for C10, amended: when the key pair does not load the run ends with
the message "Unable to load X.509 key pair: " followed by the error that
`tls.LoadX509KeyPair` returned. -/
theorem fatal_message_witness :
    fatalExit (main World.noKeyPair Flags.full) = some ⟨.keyPair,
      "Unable to load X.509 key pair: tls: failed to find any PEM data in certificate input"⟩ ∧
    (traceOf World.noKeyPair Flags.full).getLast? = some (.logFatal
      "Unable to load X.509 key pair: tls: failed to find any PEM data in certificate input") ∧
    ∃ err, World.noKeyPair.LoadX509KeyPair Flags.full.cert Flags.full.key = .error err ∧
      "Unable to load X.509 key pair: tls: failed to find any PEM data in certificate input"
        = "Unable to load X.509 key pair: " ++ err :=
  ⟨rfl, (fatal_message World.noKeyPair Flags.full _ rfl).1,
    (fatal_message World.noKeyPair Flags.full
      ⟨.keyPair,
        "Unable to load X.509 key pair: tls: failed to find any PEM data in certificate input"⟩
      rfl).2⟩

end Blubber
